import Mathlib

/-!
Verification of the BANKLOVABLE banking-demo application.

The server under study is an Express HTTP API (`server.js` variant, the file
`src/unnamed/part_000`); the client is an axios-based API wrapper
(`src/src/services/api.ts`) and a jsPDF receipt generator
(`src/unnamed/part_002`).  This file embeds the route handlers and client
functions that the verified properties speak about as executable Lean
functions.  External collaborators (the PostgreSQL store, bcrypt, jsonwebtoken,
the browser) are passed in as function parameters, exactly where the JavaScript
calls out to them; everything the repository itself computes is translated
statement by statement.
-/

namespace Bank

/-- A JavaScript/JSON value, as produced by `res.json(...)` bodies and read
back by the frontend with property access.  `undefined` models JavaScript
`undefined` (the result of reading an absent property). -/
inductive Js where
  | undefined : Js
  | nullv : Js
  | bool (b : Bool) : Js
  | num (q : ℚ) : Js
  | str (s : String) : Js
  | arr (xs : List Js) : Js
  | obj (fields : List (String × Js)) : Js
deriving Inhabited

/-- JavaScript property access `v[k]`: `undefined` on non-objects and on
absent keys. -/
def Js.get : Js → String → Js
  | .obj fs, k => (fs.lookup k).getD .undefined
  | _, _ => .undefined

/-- JavaScript truthiness of a value. -/
def Js.truthy : Js → Bool
  | .undefined => false
  | .nullv => false
  | .bool b => b
  | .num q => decide (q ≠ 0)
  | .str s => decide (s ≠ "")
  | .arr _ => true
  | .obj _ => true

/-- Serialization of an optional string field (`null` when absent, as a
missing DB column arrives as SQL NULL). -/
def jsOfOptStr : Option String → Js
  | some s => .str s
  | none => .nullv

/-- An HTTP response as produced by a route handler: status code plus JSON
body. -/
structure Response where
  status : Nat
  body : Js
deriving Inhabited

/-- Body of the common `res.status(s).json({ message })` pattern. -/
def msgBody (m : String) : Js := .obj [("message", .str m)]

/-- An error thrown by the data-access layer (a `pg` error object): its
`code` (e.g. `'23505'` for a unique-constraint violation) and its
`message`. -/
structure DbError where
  code : String
  message : String
deriving Repr, DecidableEq, Inhabited

/-- Body of `res.status(500).json({ message, error: error.message })`. -/
def errBody (m : String) (e : DbError) : Js :=
  .obj [("message", .str m), ("error", .str e.message)]

/-- A stored user row (`users` table), with the fields the handlers read. -/
structure User where
  id : String
  username : String
  password : String
  full_name : String := ""
  email : String := ""
  phone : Option String := none
  status : String := "Active"
  balance : ℚ := 0
  is_admin : Bool := false
  avatar : Option String := none
  pin : Option String := none
  created_at : String := ""
  last_login : Option String := none
deriving Repr, DecidableEq, Inhabited

/-- The decoded JWT payload: `{ id, username, isAdmin }` as signed at login
and attached to `req.user` by the middleware. -/
structure Claims where
  id : String
  username : String
  isAdmin : Bool
deriving Repr, DecidableEq, Inhabited

/-! ### The login-attempt map

`const loginAttempts = new Map()` keyed by client address, with `get`
(defaulting to 0 via `|| 0`), `set` and `delete`.  Embedded as an association
list; `mapSet` replaces any previous binding. -/

/-- The in-memory rate-limit state: client address to failure count. -/
abbrev AttemptMap := List (String × Nat)

/-- `loginAttempts.get(ip) || 0`. -/
def mapGet (m : AttemptMap) (k : String) : Nat := (m.lookup k).getD 0

/-- `loginAttempts.set(ip, v)`. -/
def mapSet (m : AttemptMap) (k : String) (v : Nat) : AttemptMap :=
  (k, v) :: m.filter (fun p => p.1 != k)

/-- `loginAttempts.delete(ip)`. -/
def mapDelete (m : AttemptMap) (k : String) : AttemptMap :=
  m.filter (fun p => p.1 != k)

/-! ### Authentication middleware (`authenticateToken`, part_000 lines 82-102)

```js
const authHeader = req.headers['authorization'];
const headerToken = authHeader && authHeader.split(' ')[1];
const cookieToken = req.cookies?.token;
const token = cookieToken || headerToken;
if (!token) return res.status(401).json({ message: 'Access denied. No token provided.' });
jwt.verify(token, SECRET, (err, user) => {
  if (err) return res.status(403).json({ message:
    err.name === 'TokenExpiredError' ? 'Token expired. Please log in again.' : 'Invalid token.' });
  req.user = user; next(); });
```
`jwt.verify` is external; it is passed in as a function returning either an
error (identified by its `name`) or the decoded claims. -/

/-- The outcome of `jwt.verify`: an error carrying `err.name`, or decoded
claims. -/
inductive JwtVerify where
  | err (name : String) : JwtVerify
  | ok (claims : Claims) : JwtVerify
deriving Repr, DecidableEq, Inhabited

/-- Outcome of a middleware: either a response is sent (halt) or the request
proceeds down the chain with `req.user` set. -/
inductive AuthOutcome where
  | halt (r : Response) : AuthOutcome
  | proceed (claims : Claims) : AuthOutcome
deriving Inhabited

/-- JavaScript `split(' ')` on a character list: split at every single space,
keeping empty fields. -/
def splitSpaceChars : List Char → List (List Char)
  | [] => [[]]
  | c :: cs =>
    let rest := splitSpaceChars cs
    if c = ' ' then [] :: rest
    else
      match rest with
      | [] => [[c]]
      | r :: rs => (c :: r) :: rs

/-- JavaScript `s.split(' ')`. -/
def splitOnSpace (s : String) : List String :=
  (splitSpaceChars s.toList).map (fun cs => ⟨cs⟩)

/-- `authHeader && authHeader.split(' ')[1]`: the token part of a
`Bearer <token>` header, `none` when the header is absent or has no second
space-separated field. -/
def headerTokenOf (authHeader : Option String) : Option String :=
  authHeader.bind (fun h => (splitOnSpace h).get? 1)

/-- `const token = cookieToken || headerToken; if (!token) ...`: the token the
middleware will verify, `none` when the 401 branch fires.  JS `||` and `!`
test truthiness, so an empty-string cookie falls through to the header and an
empty-string result counts as absent. -/
def tokenSelected (cookieToken authHeader : Option String) : Option String :=
  let headerToken := headerTokenOf authHeader
  let token := match cookieToken with
    | some c => if c = "" then headerToken else some c
    | none => headerToken
  match token with
  | some t => if t = "" then none else some t
  | none => none

/-- The `authenticateToken` middleware. -/
def authenticateToken (verify : String → JwtVerify)
    (cookieToken authHeader : Option String) : AuthOutcome :=
  match tokenSelected cookieToken authHeader with
  | none => .halt ⟨401, msgBody "Access denied. No token provided."⟩
  | some t =>
    match verify t with
    | .err name =>
      .halt ⟨403, msgBody (if name = "TokenExpiredError"
        then "Token expired. Please log in again." else "Invalid token.")⟩
    | .ok claims => .proceed claims

/-! ### Login handler (`POST /api/login`, part_000 lines 331-403)

The credential store (`db.getUserByUsername`) and the hash compare
(`bcrypt.compare`) are external and passed as parameters.  The embedding also
records, as booleans, which external effects the handler performed: whether
the store was queried, whether a password hash comparison ran, whether a
token was signed and a session cookie set. -/

/-- Result of one run of the login handler: the HTTP response, the
login-attempt map after the run, and which effects were performed. -/
structure LoginResult where
  resp : Response
  attempts : AttemptMap
  queriedStore : Bool
  comparedPassword : Bool
  tokenSigned : Bool
  cookieSet : Bool
deriving Inhabited

/-- Success body of login: `{ user: { id, username, fullName, email, isAdmin,
avatar } }`. -/
def loginUserBody (u : User) : Js :=
  .obj [("user", .obj [("id", .str u.id), ("username", .str u.username),
    ("fullName", .str u.full_name), ("email", .str u.email),
    ("isAdmin", .bool u.is_admin), ("avatar", jsOfOptStr u.avatar)])]

/-- `body(field).trim().notEmpty()` of express-validator: the field still has
content after trimming whitespace, i.e. it contains a non-whitespace
character. -/
def trimNonempty (s : String) : Bool := s.toList.any (fun c => !c.isWhitespace)

/-- The `POST /api/login` handler.  Validators: `body('username').trim()
.notEmpty()` and `body('password').notEmpty()`. -/
def loginHandler (getUserByUsername : String → Except DbError (Option User))
    (bcryptCompare : String → String → Bool)
    (ip username password : String) (st : AttemptMap) : LoginResult :=
  let attempts := mapGet st ip
  if 5 ≤ attempts then
    ⟨⟨429, msgBody "Too many login attempts. Please try again later."⟩,
      st, false, false, false, false⟩
  else if trimNonempty username = false ∨ password = "" then
    ⟨⟨400, msgBody "Validation failed"⟩, st, false, false, false, false⟩
  else
    match getUserByUsername username with
    | .error e =>
      ⟨⟨500, errBody "Server error during login" e⟩, st, true, false, false, false⟩
    | .ok none =>
      ⟨⟨401, msgBody "User not found. Please check your username."⟩,
        mapSet st ip (attempts + 1), true, false, false, false⟩
    | .ok (some u) =>
      if u.status ≠ "Active" then
        ⟨⟨403, msgBody "Your account is inactive. Please contact support."⟩,
          st, true, false, false, false⟩
      else if bcryptCompare password u.password = false then
        ⟨⟨401, msgBody "Incorrect password. Please try again."⟩,
          mapSet st ip (attempts + 1), true, true, false, false⟩
      else
        ⟨⟨200, loginUserBody u⟩, mapDelete st ip, true, true, true, true⟩

/-- The attempt map after `n` successive login attempts with the same
credentials from the same address, starting from the empty map. -/
def afterAttempts (getU : String → Except DbError (Option User))
    (cmp : String → String → Bool) (ip username password : String) :
    Nat → AttemptMap
  | 0 => []
  | n + 1 => (loginHandler getU cmp ip username password
      (afterAttempts getU cmp ip username password n)).attempts

/-! ### Self-or-admin routes (part_000 lines 535-563, 565-576, 579-625, 627-638)

Each handler first enforces `if (!req.user.isAdmin && req.params.id !==
req.user.id) return 403`, then performs its store operation inside
`try/catch` with the catch mapping to a 500. -/

/-- A transaction row, with the fields the handlers serialize. -/
structure Txn where
  id : String
  user_id : String
  type : String
  amount : ℚ
  date_time : String
deriving Repr, DecidableEq, Inhabited

/-- JSON serialization of a transaction row. -/
def jsOfTxn (t : Txn) : Js :=
  .obj [("id", .str t.id), ("user_id", .str t.user_id), ("type", .str t.type),
    ("amount", .num t.amount), ("date_time", .str t.date_time)]

/-- `GET /api/users/:id` (after `authenticateToken`). -/
def getUserByIdHandler (getUserById : String → Except DbError (Option User))
    (claims : Claims) (paramId : String) : Response :=
  if claims.isAdmin = false ∧ paramId ≠ claims.id then
    ⟨403, msgBody "You can only access your own user details"⟩
  else
    match getUserById paramId with
    | .error e => ⟨500, errBody "Server error fetching user" e⟩
    | .ok none => ⟨404, msgBody "User not found"⟩
    | .ok (some u) =>
      ⟨200, .obj [("user", .obj [("id", .str u.id), ("username", .str u.username),
        ("fullName", .str u.full_name), ("email", .str u.email),
        ("phone", jsOfOptStr u.phone), ("status", .str u.status),
        ("balance", .num u.balance), ("isAdmin", .bool u.is_admin),
        ("avatar", jsOfOptStr u.avatar), ("created_at", .str u.created_at),
        ("last_login", jsOfOptStr u.last_login)])]⟩

/-- `GET /api/users/:userId/transactions` (after `authenticateToken`). -/
def getUserTxnsHandler (getUserTransactions : String → Except DbError (List Txn))
    (claims : Claims) (paramUserId : String) : Response :=
  if claims.isAdmin = false ∧ paramUserId ≠ claims.id then
    ⟨403, msgBody "You can only access your own transactions"⟩
  else
    match getUserTransactions paramUserId with
    | .error e => ⟨500, errBody "Server error fetching transactions" e⟩
    | .ok ts => ⟨200, .obj [("data", .arr (ts.map jsOfTxn))]⟩

/-- The file object multer attaches at `req.file` when the upload middleware
accepted a file. -/
structure UploadedFile where
  filename : String
deriving Repr, DecidableEq, Inhabited

/-- `PATCH /api/users/:id/avatar` (after `authenticateToken` and
`upload.single('avatar')`); `file` is `req.file`. -/
def patchAvatarHandler (updateUserAvatar : String → String → Except DbError User)
    (claims : Claims) (paramId : String) (file : Option UploadedFile) : Response :=
  if claims.isAdmin = false ∧ paramId ≠ claims.id then
    ⟨403, msgBody "You can only update your own avatar"⟩
  else
    match file with
    | none => ⟨400, msgBody "Avatar file is required"⟩
    | some f =>
      let avatarPath := "/Uploads/avatars/" ++ f.filename
      match updateUserAvatar paramId avatarPath with
      | .error e => ⟨500, errBody "Server error updating avatar" e⟩
      | .ok _ =>
        ⟨200, .obj [("data", .obj [("message", .str "Avatar updated successfully"),
          ("avatar", .str avatarPath)])]⟩

/-- `DELETE /api/users/:id/avatar` (after `authenticateToken`). -/
def deleteAvatarHandler (deleteUserAvatar : String → Except DbError Unit)
    (claims : Claims) (paramId : String) : Response :=
  if claims.isAdmin = false ∧ paramId ≠ claims.id then
    ⟨403, msgBody "You can only delete your own avatar"⟩
  else
    match deleteUserAvatar paramId with
    | .error e => ⟨500, errBody "Server error deleting avatar" e⟩
    | .ok _ => ⟨200, msgBody "Avatar deleted successfully"⟩

/-! ### Signup and admin user creation (part_000 lines 162-196 and 198-234)

`express-validator` chain: `full_name` trimmed non-empty, `username` trimmed
non-empty, `email` passes `isEmail` (an external validator, passed in as a
predicate), `password` at least 6 characters.  The `try` block reads the
settings record, gates registration, then calls `db.createUser`; the `catch`
maps a `'23505'` (unique violation) to 400 and anything else to 500. -/

/-- The process-wide settings record. -/
structure Settings where
  systemName : String := ""
  maintenance : Bool := false
  allowNewUsers : Bool := true
  contactEmail : String := ""
deriving Repr, DecidableEq, Inhabited

/-- The signup / user-creation request body. -/
structure SignupBody where
  full_name : String
  username : String
  email : String
  password : String
deriving Repr, DecidableEq, Inhabited

/-- The validator chain shared by `POST /api/signup` and `POST /api/users`. -/
def signupValid (isEmail : String → Bool) (b : SignupBody) : Bool :=
  trimNonempty b.full_name && trimNonempty b.username &&
    isEmail b.email && decide (6 ≤ b.password.length)

/-- Serialized created-user fields shared by both creation routes
(`avatar: user.avatar || null`, `balance: user.balance || 0`). -/
def createdUserFields (u : User) : Js :=
  .obj [("id", .str u.id), ("username", .str u.username),
    ("fullName", .str u.full_name), ("email", .str u.email),
    ("isAdmin", .bool u.is_admin), ("status", .str u.status),
    ("avatar", jsOfOptStr u.avatar), ("created_at", .str u.created_at),
    ("balance", .num u.balance)]

/-- The shared `catch` of the two creation routes: `error.code === '23505'`
becomes a 400 conflict, everything else a 500. -/
def createUserCatch (r : Except DbError Response) : Response :=
  match r with
  | .ok resp => resp
  | .error e =>
    if e.code = "23505" then ⟨400, msgBody "Username or email already exists"⟩
    else ⟨500, errBody "Server error creating user" e⟩

/-- `settings && settings.allowNewUsers === false`: whether the signup gate
fires (a missing settings record lets signup proceed). -/
def registrationClosed : Option Settings → Bool
  | some s => s.allowNewUsers = false
  | none => false

/-- The `try` block of `POST /api/signup`; a thrown store error propagates to
the `catch`. -/
def signupTry (isEmail : String → Bool)
    (getSettings : Except DbError (Option Settings))
    (createUser : SignupBody → Except DbError User)
    (b : SignupBody) : Except DbError Response :=
  if signupValid isEmail b = false then
    .ok ⟨400, msgBody "Validation failed"⟩
  else
    match getSettings with
    | .error e => .error e
    | .ok settings =>
      if registrationClosed settings then
        .ok ⟨403, msgBody "Registrations are disabled."⟩
      else
        match createUser b with
        | .error e => .error e
        | .ok user => .ok ⟨201, .obj [("data", createdUserFields user)]⟩

/-- The `POST /api/signup` handler. -/
def signupHandler (isEmail : String → Bool)
    (getSettings : Except DbError (Option Settings))
    (createUser : SignupBody → Except DbError User)
    (b : SignupBody) : Response :=
  createUserCatch (signupTry isEmail getSettings createUser b)

/-- The `try` block of admin `POST /api/users` (after `authenticateToken`):
admin check first, then validation, then the store call. -/
def createUserTry (isEmail : String → Bool)
    (createUser : SignupBody → Except DbError User)
    (claims : Claims) (b : SignupBody) : Except DbError Response :=
  if claims.isAdmin = false then
    .ok ⟨403, msgBody "Admin access required"⟩
  else if signupValid isEmail b = false then
    .ok ⟨400, msgBody "Validation failed"⟩
  else
    match createUser b with
    | .error e => .error e
    | .ok user => .ok ⟨201, .obj [("user", createdUserFields user)]⟩

/-- The admin `POST /api/users` handler. -/
def createUserHandler (isEmail : String → Bool)
    (createUser : SignupBody → Except DbError User)
    (claims : Claims) (b : SignupBody) : Response :=
  createUserCatch (createUserTry isEmail createUser claims b)

/-! ### Balance update (`PATCH /api/users/:id/balance`, part_000 lines 312-329)

Validator: `body('balance').isFloat({ min: 0 })`.  Inside the handler the
admin check comes first, then the validation result is consulted. -/

/-- The `PATCH /api/users/:id/balance` handler (after `authenticateToken`),
with the body's `balance` field as a rational number. -/
def updateBalanceHandler (updateUserBalance : String → ℚ → Except DbError User)
    (claims : Claims) (paramId : String) (balance : ℚ) : Response :=
  if claims.isAdmin = false then
    ⟨403, msgBody "Admin access required"⟩
  else if balance < 0 then
    ⟨400, msgBody "Validation failed"⟩
  else
    match updateUserBalance paramId balance with
    | .error e => ⟨500, errBody "Server error updating user balance" e⟩
    | .ok u =>
      ⟨200, .obj [("data", .obj [("id", .str u.id), ("username", .str u.username),
        ("balance", .num u.balance)])]⟩

/-! ### PIN verification (`POST /api/users/:userId/verify-pin`,
part_000 lines 236-266)

`if (!pin || typeof pin !== 'string')` → 400 (so a missing, non-string, or
empty-string pin is rejected); user lookup; `if (!user || !user.pin)` → 404;
`bcrypt.compare(pin, user.pin)` → `res.json({ data: { valid } })`.
The handler never touches `loginAttempts`; the embedding threads the map
through unchanged to make that frame condition expressible. -/

/-- Result of the PIN-verification handler: response plus the (untouched)
login-attempt map. -/
structure PinResult where
  resp : Response
  attempts : AttemptMap
deriving Inhabited

/-- The `POST /api/users/:userId/verify-pin` handler.  `pin` is `req.body.pin`
when it is a string, `none` otherwise. -/
def verifyPinHandler (getUserById : String → Except DbError (Option User))
    (bcryptCompare : String → String → Bool)
    (userId : String) (pin : Option String) (st : AttemptMap) : PinResult :=
  match pin with
  | none => ⟨⟨400, msgBody "PIN is required and must be a string."⟩, st⟩
  | some p =>
    if p = "" then ⟨⟨400, msgBody "PIN is required and must be a string."⟩, st⟩
    else
      match getUserById userId with
      | .error e => ⟨⟨500, errBody "Server error verifying PIN" e⟩, st⟩
      | .ok none => ⟨⟨404, msgBody "User or PIN not found."⟩, st⟩
      | .ok (some u) =>
        match u.pin with
        | none => ⟨⟨404, msgBody "User or PIN not found."⟩, st⟩
        | some hash =>
          if hash = "" then ⟨⟨404, msgBody "User or PIN not found."⟩, st⟩
          else ⟨⟨200, .obj [("data", .obj [("valid", .bool (bcryptCompare p hash))])]⟩, st⟩

/-! ### Frontend API client (`src/src/services/api.ts`)

`axios.create({ ..., validateStatus: (status) => status < 500 })`: a response
with status below 500 settles the request promise as fulfilled; only statuses
≥ 500 (or transport failures) reject.  The response interceptor's rejection
handler redirects to `/login` when `error.response?.status === 401` and the
current path is not `/login`. -/

/-- `validateStatus: (status) => status < 500`. -/
def validateStatus (status : Nat) : Bool := status < 500

/-- A settled axios response: HTTP status plus parsed JSON body
(`response.data`). -/
structure AxiosResponse where
  status : Nat
  data : Js
deriving Inhabited

/-- How an axios request settles: fulfilled with a response, or rejected with
an error whose `response` field is present when the server did answer. -/
inductive AxiosSettled where
  | fulfilled (r : AxiosResponse) : AxiosSettled
  | rejected (errorResponse : Option AxiosResponse) : AxiosSettled
deriving Inhabited

/-- Result of the response interceptor: whether
`window.location.href = '/login'` was assigned, and the settled promise. -/
structure InterceptedResult where
  redirectedToLogin : Bool
  settled : AxiosSettled
deriving Inhabited

/-- Axios settlement under the configured `validateStatus`. -/
def axiosSettle (r : AxiosResponse) : AxiosSettled :=
  if validateStatus r.status then .fulfilled r else .rejected (some r)

/-- The response interceptor of `api.ts` (lines 41-53): the fulfillment
handler is the identity; the rejection handler redirects on a 401 response
when not already at `/login`, and re-rejects. -/
def responseInterceptor (pathname : String) : AxiosSettled → InterceptedResult
  | .fulfilled r => ⟨false, .fulfilled r⟩
  | .rejected er =>
    let is401 := match er with
      | some r => r.status = 401
      | none => false
    ⟨is401 && (pathname != "/login"), .rejected er⟩

/-- What the API client does with a server response: settle per
`validateStatus`, then run the interceptor. -/
def apiClientReceive (pathname : String) (r : AxiosResponse) : InterceptedResult :=
  responseInterceptor pathname (axiosSettle r)

/-- `users.verifyPin` (api.ts lines 240-253): on a fulfilled response, throw
when `response.data` is falsy, else return `response.data.valid`; the catch
re-throws `error.response?.data?.message || 'Failed to verify PIN'`.
The returned value is a `Js` value because the property access can (and does)
produce `undefined` despite the declared `Promise<boolean>` type. -/
def verifyPinClient (pathname : String) (serverResp : AxiosResponse) :
    Except String Js :=
  match apiClientReceive pathname serverResp with
  | ⟨_, .fulfilled r⟩ =>
    if r.data.truthy = false then .error "No data received from server"
    else .ok (r.data.get "valid")
  | ⟨_, .rejected er⟩ =>
    .error (match er with
      | some r =>
        match r.data.get "message" with
        | .str m => if m = "" then "Failed to verify PIN" else m
        | _ => "Failed to verify PIN"
      | none => "Failed to verify PIN")

/-! ### PDF receipt placement (`generatePDFReceipt`, part_002 lines 359-376)

```js
const imgWidth = 210; const pageHeight = 295;
const imgHeight = (canvas.height * imgWidth) / canvas.width;
if (imgHeight <= pageHeight) pdf.addImage(imgData,'PNG',0,0,imgWidth,imgHeight);
else { const scale = pageHeight / imgHeight;
       const scaledWidth = imgWidth * scale; const scaledHeight = imgHeight * scale;
       const xOffset = (210 - scaledWidth) / 2;
       pdf.addImage(imgData,'PNG',xOffset,0,scaledWidth,scaledHeight); }
```
Arithmetic is modelled over ℚ. -/

/-- One image placement on the PDF page: x, y, width, height. -/
structure PlacedImage where
  x : ℚ
  y : ℚ
  w : ℚ
  h : ℚ
deriving Repr, DecidableEq, Inhabited

/-- The page-width constant `imgWidth = 210` (A4 width in mm). -/
def pdfImgWidth : ℚ := 210

/-- The page-height constant `pageHeight = 295`. -/
def pdfPageHeight : ℚ := 295

/-- The list of `addImage` calls issued by `generatePDFReceipt` for a canvas
of the given dimensions. -/
def receiptPlacement (canvasWidth canvasHeight : ℚ) : List PlacedImage :=
  let imgHeight := canvasHeight * pdfImgWidth / canvasWidth
  if imgHeight ≤ pdfPageHeight then
    [⟨0, 0, pdfImgWidth, imgHeight⟩]
  else
    let scale := pdfPageHeight / imgHeight
    let scaledWidth := pdfImgWidth * scale
    let scaledHeight := imgHeight * scale
    let xOffset := (210 - scaledWidth) / 2
    [⟨xOffset, 0, scaledWidth, scaledHeight⟩]

/-! ### Concrete fixtures

Closed instances of the external collaborators (store contents, hash compare,
token verifier), used to evaluate the theorems on explicit inputs. -/

/-- A stored admin user whose password hash is `"hash"`. -/
def adminUser : User := { id := "u1", username := "admin", password := "hash" }

/-- A store containing exactly `adminUser`. -/
def dbFix : String → Except DbError (Option User) :=
  fun s => if s = "admin" then .ok (some adminUser) else .ok none

/-- A hash compare that accepts exactly password `"right"` against hash
`"hash"`. -/
def cmpFix : String → String → Bool :=
  fun p h => (p == "right") && (h == "hash")

/-- A stored user whose status is `Inactive`. -/
def inactiveUser : User :=
  { id := "u9", username := "carol", password := "hash", status := "Inactive" }

/-- A store containing exactly `inactiveUser`. -/
def dbInactive : String → Except DbError (Option User) :=
  fun s => if s = "carol" then .ok (some inactiveUser) else .ok none

/-- A token verifier with one valid, one expired and otherwise malformed
tokens. -/
def verifyFix : String → JwtVerify :=
  fun t =>
    if t = "goodtok" then .ok ⟨"u1", "admin", false⟩
    else if t = "oldtok" then .err "TokenExpiredError"
    else .err "JsonWebTokenError"

/-- A non-admin identity. -/
def selfClaims : Claims := ⟨"u1", "alice", false⟩

/-- A stored user holding a PIN hash. -/
def pinUser : User :=
  { id := "u1", username := "alice", password := "ph", pin := some "pinhash" }

/-- A store containing exactly `pinUser`. -/
def pinDbFix : String → Except DbError (Option User) :=
  fun s => if s = "u1" then .ok (some pinUser) else .ok none

/-- A hash compare that accepts exactly PIN `"1234"` against hash
`"pinhash"`. -/
def pinCmpFix : String → String → Bool :=
  fun p h => (p == "1234") && (h == "pinhash")

/-- A store whose `createUser` always succeeds. -/
def createdFix : SignupBody → Except DbError User :=
  fun b => .ok { id := "new", username := b.username, password := "stored" }

/-- An email validator fixture accepting everything. -/
def anyEmail : String → Bool := fun _ => true

/-- Settings with registration disabled. -/
def settingsOff : Settings := { allowNewUsers := false }

/-- A balance-update store fixture. -/
def balDbFix : String → ℚ → Except DbError User := fun _ _ => .ok adminUser

/-- A transaction-listing store fixture. -/
def txFix : String → Except DbError (List Txn) :=
  fun _ => .ok [⟨"t1", "u1", "Deposit", 10, "2024-01-01T00:00:00Z"⟩]

/-- An avatar-update store fixture. -/
def upAvFix : String → String → Except DbError User := fun _ _ => .ok adminUser

/-- An avatar-delete store fixture. -/
def delAvFix : String → Except DbError Unit := fun _ => .ok ()

/-- A unique-constraint violation as thrown by `pg`. -/
def dupErr : DbError :=
  ⟨"23505", "duplicate key value violates unique constraint users_username_key"⟩

/-- A store whose `createUser` always fails with the unique violation. -/
def createDup : SignupBody → Except DbError User := fun _ => .error dupErr

/-- An admin identity. -/
def adminClaims : Claims := ⟨"u0", "admin", true⟩

/-- A well-formed signup body. -/
def okBody : SignupBody := ⟨"Bob Jones", "bob", "bob@example.com", "secret123"⟩

/-! ## Helper lemmas -/

theorem mapGet_mapSet_self (m : AttemptMap) (k : String) (v : Nat) :
    mapGet (mapSet m k v) k = v := by
  simp [mapGet, mapSet, List.lookup]

theorem loginHandler_wrong_password
    (getU : String → Except DbError (Option User)) (cmp : String → String → Bool)
    (ip uname pw : String) (st : AttemptMap) (u : User)
    (hlt : mapGet st ip < 5) (hname : trimNonempty uname = true) (hpw : pw ≠ "")
    (hdb : getU uname = .ok (some u)) (hact : u.status = "Active")
    (hcmp : cmp pw u.password = false) :
    loginHandler getU cmp ip uname pw st =
      ⟨⟨401, msgBody "Incorrect password. Please try again."⟩,
        mapSet st ip (mapGet st ip + 1), true, true, false, false⟩ := by
  have h5 : ¬ 5 ≤ mapGet st ip := Nat.not_le.mpr hlt
  simp [loginHandler, h5, hname, hpw, hdb, hact, hcmp]

theorem afterAttempts_mapGet
    (getU : String → Except DbError (Option User)) (cmp : String → String → Bool)
    (ip uname pw : String) (u : User)
    (hname : trimNonempty uname = true) (hpw : pw ≠ "")
    (hdb : getU uname = .ok (some u)) (hact : u.status = "Active")
    (hcmp : cmp pw u.password = false) :
    ∀ n, n ≤ 5 → mapGet (afterAttempts getU cmp ip uname pw n) ip = n := by
  intro n
  induction n with
  | zero => intro _; simp [afterAttempts, mapGet]
  | succ k ih =>
    intro hk5
    have hk : k ≤ 5 := Nat.le_of_succ_le hk5
    have hlt : mapGet (afterAttempts getU cmp ip uname pw k) ip < 5 := by
      rw [ih hk]; omega
    rw [afterAttempts,
      loginHandler_wrong_password getU cmp ip uname pw _ u hlt hname hpw hdb hact hcmp]
    simp [mapGet_mapSet_self, ih hk]

/-! ## Claim theorems -/

/-- Claim C1: a login request from an address whose stored failure count is at
least 5 is answered HTTP 429 and the credential store is not queried; in
particular, after 5 consecutive failed attempts (wrong password each time)
from one address, a 6th attempt from that address is answered 429 without a
store query even when its credentials are correct. -/
theorem C1_login_rate_limit :
    (∀ (getU : String → Except DbError (Option User)) (cmp : String → String → Bool)
        (ip username password : String) (st : AttemptMap),
      5 ≤ mapGet st ip →
        (loginHandler getU cmp ip username password st).resp.status = 429 ∧
        (loginHandler getU cmp ip username password st).queriedStore = false)
  ∧ (∀ (getU : String → Except DbError (Option User)) (cmp : String → String → Bool)
        (ip uname wrongpw rightpw : String) (u : User),
      getU uname = .ok (some u) → u.status = "Active" →
      trimNonempty uname = true → wrongpw ≠ "" → rightpw ≠ "" →
      cmp wrongpw u.password = false → cmp rightpw u.password = true →
        mapGet (afterAttempts getU cmp ip uname wrongpw 5) ip = 5 ∧
        (loginHandler getU cmp ip uname rightpw
          (afterAttempts getU cmp ip uname wrongpw 5)).resp.status = 429 ∧
        (loginHandler getU cmp ip uname rightpw
          (afterAttempts getU cmp ip uname wrongpw 5)).queriedStore = false) := by
  constructor
  · intro getU cmp ip username password st h
    constructor <;> simp [loginHandler, h]
  · intro getU cmp ip uname wrongpw rightpw u hdb hact hname hwpw hrpw hcw hcr
    have h5 : mapGet (afterAttempts getU cmp ip uname wrongpw 5) ip = 5 :=
      afterAttempts_mapGet getU cmp ip uname wrongpw u hname hwpw hdb hact hcw 5 le_rfl
    refine ⟨h5, ?_, ?_⟩ <;> simp [loginHandler, h5]

/-- Witness for C1 at a concrete store, compare function and address. -/
theorem C1_login_rate_limit_witness :
    dbFix "admin" = .ok (some adminUser) ∧ adminUser.status = "Active" ∧
    trimNonempty "admin" = true ∧ "wrong" ≠ "" ∧ "right" ≠ "" ∧
    cmpFix "wrong" adminUser.password = false ∧
    cmpFix "right" adminUser.password = true ∧
    (mapGet (afterAttempts dbFix cmpFix "10.0.0.7" "admin" "wrong" 5) "10.0.0.7" = 5 ∧
      (loginHandler dbFix cmpFix "10.0.0.7" "admin" "right"
        (afterAttempts dbFix cmpFix "10.0.0.7" "admin" "wrong" 5)).resp.status = 429 ∧
      (loginHandler dbFix cmpFix "10.0.0.7" "admin" "right"
        (afterAttempts dbFix cmpFix "10.0.0.7" "admin" "wrong" 5)).queriedStore = false) :=
  ⟨rfl, rfl, by decide, by decide, by decide, rfl, rfl,
    C1_login_rate_limit.2 dbFix cmpFix "10.0.0.7" "admin" "wrong" "right" adminUser
      rfl rfl (by decide) (by decide) (by decide) rfl rfl⟩

/-- Claim C10: a login naming an existing user whose status is not `Active`,
from an address under the rate limit and with a well-formed body, is answered
HTTP 403; the attempt map is left exactly as it was, the password is never
compared, no token is signed and no cookie is set. -/
theorem C10_inactive_login_frame :
    ∀ (getU : String → Except DbError (Option User)) (cmp : String → String → Bool)
      (ip username password : String) (st : AttemptMap) (u : User),
      mapGet st ip < 5 → trimNonempty username = true → password ≠ "" →
      getU username = .ok (some u) → u.status ≠ "Active" →
      loginHandler getU cmp ip username password st =
        ⟨⟨403, msgBody "Your account is inactive. Please contact support."⟩,
          st, true, false, false, false⟩ := by
  intro getU cmp ip username password st u hlt hname hpw hdb hst
  have h5 : ¬ 5 ≤ mapGet st ip := Nat.not_le.mpr hlt
  simp [loginHandler, h5, hname, hpw, hdb, hst]

/-- Witness for C10 at a concrete inactive user. -/
theorem C10_inactive_login_frame_witness :
    mapGet [] "10.0.0.7" < 5 ∧ trimNonempty "carol" = true ∧ ("pw" : String) ≠ "" ∧
    dbInactive "carol" = .ok (some inactiveUser) ∧ inactiveUser.status ≠ "Active" ∧
    loginHandler dbInactive cmpFix "10.0.0.7" "carol" "pw" [] =
      ⟨⟨403, msgBody "Your account is inactive. Please contact support."⟩,
        [], true, false, false, false⟩ :=
  ⟨by decide, by decide, by decide, rfl, by decide,
    C10_inactive_login_frame dbInactive cmpFix "10.0.0.7" "carol" "pw" [] inactiveUser
      (by decide) (by decide) (by decide) rfl (by decide)⟩

/-- Claim C2: the middleware takes the credential from the cookie when one is
present (non-empty), otherwise from the Authorization header's bearer part;
with neither present it answers HTTP 401; a failed verification answers HTTP
403, with the expired-token message distinct from the message of every other
verification error; a successful verification proceeds down the chain with
the decoded claims attached. -/
theorem C2_auth_middleware :
    ∀ (verify : String → JwtVerify) (cookieToken authHeader : Option String),
      (∀ c, cookieToken = some c → c ≠ "" →
        tokenSelected cookieToken authHeader = some c)
    ∧ ((cookieToken = none ∨ cookieToken = some "") →
        ∀ t, headerTokenOf authHeader = some t → t ≠ "" →
          tokenSelected cookieToken authHeader = some t)
    ∧ (tokenSelected cookieToken authHeader = none →
        authenticateToken verify cookieToken authHeader =
          .halt ⟨401, msgBody "Access denied. No token provided."⟩)
    ∧ (∀ t name, tokenSelected cookieToken authHeader = some t →
        verify t = .err name →
        authenticateToken verify cookieToken authHeader =
          .halt ⟨403, msgBody (if name = "TokenExpiredError"
            then "Token expired. Please log in again." else "Invalid token.")⟩
        ∧ "Token expired. Please log in again." ≠ "Invalid token.")
    ∧ (∀ t c, tokenSelected cookieToken authHeader = some t →
        verify t = .ok c →
        authenticateToken verify cookieToken authHeader = .proceed c) := by
  intro verify cookieToken authHeader
  refine ⟨?_, ?_, ?_, ?_, ?_⟩
  · intro c hc hne
    simp [tokenSelected, hc, hne]
  · rintro (hc | hc) t ht hne <;> simp [tokenSelected, hc, ht, hne]
  · intro h
    simp [authenticateToken, h]
  · intro t name ht hv
    exact ⟨by simp [authenticateToken, ht, hv], by decide⟩
  · intro t c ht hv
    simp [authenticateToken, ht, hv]

/-- Witness for C2 at a concrete verifier, exercising the cookie-precedence,
header-fallback, missing, expired, malformed and valid cases. -/
theorem C2_auth_middleware_witness :
    (tokenSelected (some "cookietok") (some "Bearer headertok") = some "cookietok") ∧
    (headerTokenOf (some "Bearer headertok") = some "headertok" ∧
      tokenSelected none (some "Bearer headertok") = some "headertok") ∧
    (tokenSelected none none = none ∧
      authenticateToken verifyFix none none =
        .halt ⟨401, msgBody "Access denied. No token provided."⟩) ∧
    (verifyFix "oldtok" = .err "TokenExpiredError" ∧
      authenticateToken verifyFix (some "oldtok") none =
        .halt ⟨403, msgBody "Token expired. Please log in again."⟩) ∧
    (verifyFix "badtok" = .err "JsonWebTokenError" ∧
      authenticateToken verifyFix (some "badtok") none =
        .halt ⟨403, msgBody "Invalid token."⟩) ∧
    (verifyFix "goodtok" = .ok ⟨"u1", "admin", false⟩ ∧
      authenticateToken verifyFix (some "goodtok") none =
        .proceed ⟨"u1", "admin", false⟩) := by
  refine ⟨?_, ⟨rfl, ?_⟩, ⟨rfl, ?_⟩, ⟨rfl, ?_⟩, ⟨rfl, ?_⟩, ⟨rfl, ?_⟩⟩
  · exact (C2_auth_middleware verifyFix (some "cookietok")
      (some "Bearer headertok")).1 "cookietok" rfl (by decide)
  · exact (C2_auth_middleware verifyFix none
      (some "Bearer headertok")).2.1 (Or.inl rfl) "headertok" rfl (by decide)
  · exact (C2_auth_middleware verifyFix none none).2.2.1 rfl
  · exact ((C2_auth_middleware verifyFix (some "oldtok")
      none).2.2.2.1 "oldtok" "TokenExpiredError" rfl rfl).1
  · exact ((C2_auth_middleware verifyFix (some "badtok")
      none).2.2.2.1 "badtok" "JsonWebTokenError" rfl rfl).1
  · exact (C2_auth_middleware verifyFix (some "goodtok")
      none).2.2.2.2 "goodtok" ⟨"u1", "admin", false⟩ rfl rfl

/-- Claim C3: on the four self-or-admin routes, a non-admin identity
targeting another user's id is answered HTTP 403; when the target id equals
the caller's own id and the input is valid (the store operation succeeds, the
file is present where required), the request succeeds with HTTP 200. -/
theorem C3_self_or_admin_routes :
    ∀ (claims : Claims) (pid : String)
      (getU : String → Except DbError (Option User))
      (getTx : String → Except DbError (List Txn))
      (upAv : String → String → Except DbError User)
      (delAv : String → Except DbError Unit)
      (file : Option UploadedFile),
      (claims.isAdmin = false → pid ≠ claims.id →
        (getUserByIdHandler getU claims pid).status = 403 ∧
        (getUserTxnsHandler getTx claims pid).status = 403 ∧
        (patchAvatarHandler upAv claims pid file).status = 403 ∧
        (deleteAvatarHandler delAv claims pid).status = 403)
    ∧ (pid = claims.id →
        (∀ u, getU pid = .ok (some u) →
          (getUserByIdHandler getU claims pid).status = 200)
        ∧ (∀ ts, getTx pid = .ok ts →
          (getUserTxnsHandler getTx claims pid).status = 200)
        ∧ (∀ f u, file = some f →
          upAv pid ("/Uploads/avatars/" ++ f.filename) = .ok u →
          (patchAvatarHandler upAv claims pid file).status = 200)
        ∧ (delAv pid = .ok () →
          (deleteAvatarHandler delAv claims pid).status = 200)) := by
  intro claims pid getU getTx upAv delAv file
  constructor
  · intro hadm hne
    refine ⟨?_, ?_, ?_, ?_⟩ <;>
      simp [getUserByIdHandler, getUserTxnsHandler, patchAvatarHandler,
        deleteAvatarHandler, hadm, hne]
  · intro hpid
    subst hpid
    refine ⟨?_, ?_, ?_, ?_⟩
    · intro u hu
      simp [getUserByIdHandler, hu]
    · intro ts ht
      simp [getUserTxnsHandler, ht]
    · intro f u hf hu
      simp [patchAvatarHandler, hf, hu]
    · intro hd
      simp [deleteAvatarHandler, hd]

/-- Witness for C3: the non-admin `selfClaims` is refused on `u2`'s resources
and succeeds on its own (`u1`'s) with valid input. -/
theorem C3_self_or_admin_routes_witness :
    (selfClaims.isAdmin = false ∧ "u2" ≠ selfClaims.id ∧
      (getUserByIdHandler pinDbFix selfClaims "u2").status = 403 ∧
      (getUserTxnsHandler txFix selfClaims "u2").status = 403 ∧
      (patchAvatarHandler upAvFix selfClaims "u2" (some ⟨"avatar-u2.png"⟩)).status = 403 ∧
      (deleteAvatarHandler delAvFix selfClaims "u2").status = 403) ∧
    (("u1" : String) = selfClaims.id ∧ pinDbFix "u1" = .ok (some pinUser) ∧
      (getUserByIdHandler pinDbFix selfClaims "u1").status = 200 ∧
      (getUserTxnsHandler txFix selfClaims "u1").status = 200 ∧
      (patchAvatarHandler upAvFix selfClaims "u1" (some ⟨"avatar-u1.png"⟩)).status = 200 ∧
      (deleteAvatarHandler delAvFix selfClaims "u1").status = 200) := by
  have h1 := (C3_self_or_admin_routes selfClaims "u2" pinDbFix txFix upAvFix delAvFix
    (some ⟨"avatar-u2.png"⟩)).1 rfl (by decide)
  have h2 := (C3_self_or_admin_routes selfClaims "u1" pinDbFix txFix upAvFix delAvFix
    (some ⟨"avatar-u1.png"⟩)).2 rfl
  exact ⟨⟨rfl, by decide, h1.1, h1.2.1, h1.2.2.1, h1.2.2.2⟩,
    ⟨rfl, rfl, h2.1 pinUser rfl, h2.2.1 _ rfl,
      h2.2.2.1 ⟨"avatar-u1.png"⟩ adminUser rfl rfl, h2.2.2.2 rfl⟩⟩

/-- Claim C4 as stated is false on the code: field validation runs before the
registration gate, so with registration disabled a payload that fails
validation (here: a whitespace-only username) is answered HTTP 400, not 403. -/
theorem C4_counterexample :
    (signupHandler anyEmail (.ok (some settingsOff)) createdFix
      ⟨"Ann", "", "ann@example.com", "secret123"⟩).status = 400 ∧
    ¬ (signupHandler anyEmail (.ok (some settingsOff)) createdFix
      ⟨"Ann", "", "ann@example.com", "secret123"⟩).status = 403 := by
  exact ⟨by decide, by decide⟩

/-- Claim C4 (amended): with the registration-allowed setting false, signup
is rejected with HTTP 403 whenever the payload passes field validation; when
the payload fails field validation the response is the validation 400 even
though registration is disabled. -/
theorem C4_amended_registration_gate :
    ∀ (isEmail : String → Bool) (createU : SignupBody → Except DbError User)
      (b : SignupBody) (s : Settings),
      s.allowNewUsers = false →
      (signupValid isEmail b = true →
        signupHandler isEmail (.ok (some s)) createU b =
          ⟨403, msgBody "Registrations are disabled."⟩)
    ∧ (signupValid isEmail b = false →
        signupHandler isEmail (.ok (some s)) createU b =
          ⟨400, msgBody "Validation failed"⟩) := by
  intro isEmail createU b s hs
  constructor
  · intro hv
    simp [signupHandler, signupTry, createUserCatch, registrationClosed, hv, hs]
  · intro hv
    simp [signupHandler, signupTry, createUserCatch, hv]

/-- Witness for the amended C4 at a concrete valid body and disabled
settings. -/
theorem C4_amended_registration_gate_witness :
    settingsOff.allowNewUsers = false ∧
    signupValid anyEmail okBody = true ∧
    signupHandler anyEmail (.ok (some settingsOff)) createdFix okBody =
      ⟨403, msgBody "Registrations are disabled."⟩ :=
  ⟨rfl, by decide,
    (C4_amended_registration_gate anyEmail createdFix okBody settingsOff rfl).1 (by decide)⟩

/-- Claim C5: when `createUser` fails in the store with a unique-constraint
violation (code 23505), both creation routes answer HTTP 400 with the fixed
generic conflict message — the response is independent of the error's detail
text, hence does not say which field collided — and never 500. -/
theorem C5_unique_violation_conflict :
    ∀ (isEmail : String → Bool) (getS : Except DbError (Option Settings))
      (createU : SignupBody → Except DbError User) (b : SignupBody)
      (claims : Claims) (e : DbError),
      e.code = "23505" → createU b = .error e →
      (∀ so, signupValid isEmail b = true → getS = .ok so →
        registrationClosed so = false →
        signupHandler isEmail getS createU b =
          ⟨400, msgBody "Username or email already exists"⟩)
    ∧ (claims.isAdmin = true → signupValid isEmail b = true →
        createUserHandler isEmail createU claims b =
          ⟨400, msgBody "Username or email already exists"⟩) := by
  intro isEmail getS createU b claims e hcode hc
  constructor
  · intro so hv hgs hreg
    subst hgs
    simp [signupHandler, signupTry, createUserCatch, hv, hreg, hc, hcode]
  · intro hadm hv
    simp [createUserHandler, createUserTry, createUserCatch, hadm, hv, hc, hcode]

/-- Witness for C5 at a concrete duplicate-key error with an explicit detail
text naming the username index. -/
theorem C5_unique_violation_conflict_witness :
    dupErr.code = "23505" ∧ createDup okBody = .error dupErr ∧
    signupValid anyEmail okBody = true ∧ adminClaims.isAdmin = true ∧
    signupHandler anyEmail (.ok none) createDup okBody =
      ⟨400, msgBody "Username or email already exists"⟩ ∧
    createUserHandler anyEmail createDup adminClaims okBody =
      ⟨400, msgBody "Username or email already exists"⟩ := by
  have h := C5_unique_violation_conflict anyEmail (.ok none) createDup okBody
    adminClaims dupErr rfl rfl
  exact ⟨rfl, rfl, by decide, rfl, h.1 none (by decide) rfl rfl, h.2 rfl (by decide)⟩

/-- Claim C6 as stated is false on the code: the admin check precedes
validation in the balance handler, so a non-admin caller sending
`{balance: -5}` is answered HTTP 403, not 400. -/
theorem C6_counterexample :
    (updateBalanceHandler balDbFix selfClaims "u1" (-5)).status = 403 ∧
    ¬ (updateBalanceHandler balDbFix selfClaims "u1" (-5)).status = 400 := by
  exact ⟨by decide, by decide⟩

/-- Claim C6 (amended): a PATCH balance request with a negative balance is
answered HTTP 400 for failing the non-negative constraint when the caller is
an admin; a non-admin caller is answered HTTP 403 regardless of the balance
value. -/
theorem C6_amended_negative_balance :
    ∀ (upd : String → ℚ → Except DbError User) (claims : Claims)
      (pid : String) (bal : ℚ),
      (claims.isAdmin = true → bal < 0 →
        updateBalanceHandler upd claims pid bal = ⟨400, msgBody "Validation failed"⟩)
    ∧ (claims.isAdmin = false →
        updateBalanceHandler upd claims pid bal = ⟨403, msgBody "Admin access required"⟩) := by
  intro upd claims pid bal
  constructor
  · intro hadm hneg
    simp [updateBalanceHandler, hadm, hneg]
  · intro hadm
    simp [updateBalanceHandler, hadm]

/-- Witness for the amended C6 with balance −5 for both an admin and a
non-admin caller. -/
theorem C6_amended_negative_balance_witness :
    adminClaims.isAdmin = true ∧ ((-5 : ℚ) < 0) ∧ selfClaims.isAdmin = false ∧
    updateBalanceHandler balDbFix adminClaims "u1" (-5) =
      ⟨400, msgBody "Validation failed"⟩ ∧
    updateBalanceHandler balDbFix selfClaims "u1" (-5) =
      ⟨403, msgBody "Admin access required"⟩ :=
  ⟨rfl, by decide, rfl,
    (C6_amended_negative_balance balDbFix adminClaims "u1" (-5)).1 rfl (by decide),
    (C6_amended_negative_balance balDbFix selfClaims "u1" (-5)).2 rfl⟩

/-- Claim C7 fails on the code at its frontend half.  At a concrete request
(user `u1`, PIN `"1234"`, stored hash accepted by the compare), the backend
answers HTTP 200 with body `{data: {valid: true}}` and leaves the
login-attempt map untouched — but `users.verifyPin` reads
`response.data.valid`, one envelope level short of the actual
`response.data.data.valid`, and so resolves to JS `undefined` instead of the
boolean verdict its `Promise<boolean>` type declares. -/
theorem C7_verify_pin_envelope_mismatch :
    (verifyPinHandler pinDbFix pinCmpFix "u1" (some "1234") []).resp.status = 200
  ∧ ((verifyPinHandler pinDbFix pinCmpFix "u1" (some "1234") []).resp.body.get
      "data").get "valid" = .bool true
  ∧ (verifyPinHandler pinDbFix pinCmpFix "u1" (some "1234") []).attempts = []
  ∧ verifyPinClient "/"
      ⟨(verifyPinHandler pinDbFix pinCmpFix "u1" (some "1234") []).resp.status,
        (verifyPinHandler pinDbFix pinCmpFix "u1" (some "1234") []).resp.body⟩
      = .ok .undefined
  ∧ ∀ b : Bool, verifyPinClient "/"
      ⟨(verifyPinHandler pinDbFix pinCmpFix "u1" (some "1234") []).resp.status,
        (verifyPinHandler pinDbFix pinCmpFix "u1" (some "1234") []).resp.body⟩
      ≠ .ok (.bool b) := by
  refine ⟨rfl, rfl, rfl, rfl, ?_⟩
  intro b h
  have h2 : (Except.ok Js.undefined : Except String Js) = .ok (.bool b) := h
  injection h2 with h3
  exact Js.noConfusion h3

/-- Claim C8 fails on the code.  `validateStatus: (status) => status < 500`
makes axios settle a 401 response as fulfilled, so the rejection interceptor
— the only place the `/login` redirect is written — never runs for it: at a
concrete 401 response received away from `/login`, no redirect happens and
the promise resolves normally.  The third conjunct shows the redirect branch
itself would fire on a rejected 401, i.e. the branch is unreachable rather
than absent. -/
theorem C8_no_redirect_on_401 :
    (axiosSettle ⟨401, msgBody "Access denied. No token provided."⟩ =
      .fulfilled ⟨401, msgBody "Access denied. No token provided."⟩)
  ∧ (apiClientReceive "/"
      ⟨401, msgBody "Access denied. No token provided."⟩).redirectedToLogin = false
  ∧ (responseInterceptor "/"
      (.rejected (some ⟨401, msgBody "Access denied. No token provided."⟩))).redirectedToLogin
      = true :=
  ⟨rfl, rfl, rfl⟩

/-- Claim C9: when the rasterized image's height at full page width
(`canvas.height * 210 / canvas.width`) is at most the page height 295, the
image is placed at the origin at full width; when it exceeds the page height
it is uniformly downscaled by `pageHeight / imgHeight` — its height becomes
exactly the page height and its width `210 * (295 / imgHeight)` — and
centered horizontally (`xOffset = (210 - scaledWidth) / 2`); in both cases
exactly one image is placed, producing a single page. -/
theorem C9_receipt_single_page_placement :
    ∀ canvasW canvasH : ℚ,
      (canvasH * pdfImgWidth / canvasW ≤ pdfPageHeight →
        receiptPlacement canvasW canvasH =
          [⟨0, 0, 210, canvasH * pdfImgWidth / canvasW⟩])
    ∧ (pdfPageHeight < canvasH * pdfImgWidth / canvasW →
        ∃ p : PlacedImage, receiptPlacement canvasW canvasH = [p] ∧
          p.h = 295 ∧ p.w = 210 * (295 / (canvasH * pdfImgWidth / canvasW)) ∧
          p.x = (210 - p.w) / 2 ∧ p.y = 0)
    ∧ (receiptPlacement canvasW canvasH).length = 1 := by
  intro cw ch
  refine ⟨?_, ?_, ?_⟩
  · intro h
    simp [receiptPlacement, pdfImgWidth, pdfPageHeight] at h ⊢
    simp [h]
  · intro h
    have hnle : ¬ (ch * pdfImgWidth / cw ≤ pdfPageHeight) := not_le.mpr h
    have hpos : (0 : ℚ) < ch * pdfImgWidth / cw :=
      lt_trans (by norm_num [pdfPageHeight]) h
    have hne : ch * pdfImgWidth / cw ≠ 0 := ne_of_gt hpos
    have hcancel : (ch * pdfImgWidth / cw) * (pdfPageHeight / (ch * pdfImgWidth / cw))
        = pdfPageHeight := by
      rw [← mul_div_assoc]
      exact mul_div_cancel_left₀ pdfPageHeight hne
    refine ⟨⟨(210 - pdfImgWidth * (pdfPageHeight / (ch * pdfImgWidth / cw))) / 2, 0,
      pdfImgWidth * (pdfPageHeight / (ch * pdfImgWidth / cw)),
      (ch * pdfImgWidth / cw) * (pdfPageHeight / (ch * pdfImgWidth / cw))⟩,
      ?_, ?_, ?_, ?_, rfl⟩
    · simp [receiptPlacement, hnle]
    · exact hcancel.trans (by norm_num [pdfPageHeight])
    · norm_num [pdfImgWidth, pdfPageHeight]
    · norm_num [pdfImgWidth, pdfPageHeight]
  · by_cases h : ch * pdfImgWidth / cw ≤ pdfPageHeight <;>
      simp [receiptPlacement, h]

/-- Witness for C9 at a canvas of 100×200 (image height 420 exceeds the
page) and 1000×300 (image height 63 fits). -/
theorem C9_receipt_single_page_placement_witness :
    (pdfPageHeight < 200 * pdfImgWidth / 100 ∧
      (∃ p : PlacedImage, receiptPlacement 100 200 = [p] ∧
        p.h = 295 ∧ p.w = 210 * (295 / (200 * pdfImgWidth / 100)) ∧
        p.x = (210 - p.w) / 2 ∧ p.y = 0)) ∧
    (300 * pdfImgWidth / 1000 ≤ pdfPageHeight ∧
      receiptPlacement 1000 300 = [⟨0, 0, 210, 300 * pdfImgWidth / 1000⟩]) ∧
    (receiptPlacement 100 200).length = 1 :=
  ⟨⟨by norm_num [pdfPageHeight, pdfImgWidth],
    (C9_receipt_single_page_placement 100 200).2.1
      (by norm_num [pdfPageHeight, pdfImgWidth])⟩,
   ⟨by norm_num [pdfPageHeight, pdfImgWidth],
    (C9_receipt_single_page_placement 1000 300).1
      (by norm_num [pdfPageHeight, pdfImgWidth])⟩,
   (C9_receipt_single_page_placement 100 200).2.2⟩

end Bank
